import Mathlib

/-!
# gogo-delivery: data-access and domain-assembly layer, shallow embedding

This file embeds the core of the `gogo-delivery` server (src/db.rs, src/types.rs)
in Lean 4 and proves the behavioural properties of its specification.

Modelling choices:
* `ID` (Rust `i32`) is `Int`: identifiers are only generated, compared and stored,
  never subjected to wrap-around arithmetic.
* `Decimal` (crate `rust_decimal`) is `ℚ`: an exact-arithmetic superset of decimal
  numbers; every `Decimal` value and operation used by the source (literals,
  multiplication by an integer, summation, comparison) is represented exactly.
* Timestamps (`NaiveDate`, `NaiveDateTime`) are `Int` (totally ordered instants).
* A fallible database call returns `Except DbError α`, mirroring `Result`:
  `?` becomes an explicit propagating `match`.
* `HashMap` is an association list whose `insert` overwrites and whose `remove`
  deletes the key; the source only ever accesses these maps by key.
* The relational store is an explicit `DbState` record of tables.  The SQL
  statement files (`src/sql/**`) are not part of the sources; every definition
  whose doc comment starts with `Modelled from the spec:` reconstructs one such
  statement from the specification's description of the operation.
-/

abbrev ID := Int
abbrev Decimal := ℚ
abbrev NaiveDate := Int
abbrev NaiveDateTime := Int

/-- Errors of the data layer.  In the source an operation returns either
`tokio_postgres::Error` (a store failure) or an `anyhow` error built from a
message; the two are distinguishable, which this sum type mirrors. -/
inductive DbError where
  | store (msg : String)
  | message (msg : String)
deriving DecidableEq, Repr

/-- The consistency-fault error raised by the aggregation code
(src/db.rs: `anyhow!("database was changed during data merging")`). -/
def consistencyFault : DbError := .message "database was changed during data merging"

/-- src/types.rs `SortOrder`. -/
inductive SortOrder where
  | Ascending
  | Descending
deriving DecidableEq, Repr

/-- src/types.rs `UserRole`. -/
inductive UserRole where
  | Customer
  | Manager
  | Rider
deriving DecidableEq, Repr

/-- src/types.rs `User`. -/
structure User where
  id : ID
  username : String
  password : String
  first_name : Option String
  last_name : Option String
  birth_date : NaiveDate
  role : UserRole
deriving DecidableEq, Repr

/-- src/types.rs `Category`. -/
structure Category where
  id : ID
  title : String
  description : Option String
deriving DecidableEq, Repr

/-- src/types.rs `IndexedFood`. -/
structure IndexedFood where
  id : ID
  title : String
  description : Option String
  category_id : ID
  count : Int
  is_alcohol : Bool
  price : Decimal
deriving DecidableEq, Repr

/-- src/types.rs `Food`: a food row with its resolved category. -/
structure Food where
  category : Category
  indexed_food : IndexedFood
deriving DecidableEq, Repr

/-- src/types.rs `SortFoodBy`. -/
inductive SortFoodBy where
  | Title
  | Count
  | Price
deriving DecidableEq, Repr

/-- src/types.rs `SortFoodBy::cmp`.  Rust's `Ord::cmp` on `String` and `i32`
and `PartialOrd::partial_cmp(..).unwrap_or(Equal)` on the (totally ordered)
`Decimal` all coincide with the three-way comparison of the linear order,
which is `compareOfLessAndEq`. -/
def SortFoodBy.cmp : SortFoodBy → IndexedFood → IndexedFood → Ordering
  | .Title, lhs, rhs => compareOfLessAndEq lhs.title rhs.title
  | .Count, lhs, rhs => compareOfLessAndEq lhs.count rhs.count
  | .Price, lhs, rhs => compareOfLessAndEq lhs.price rhs.price

/-- src/types.rs `IndexedCartItem`. -/
structure IndexedCartItem where
  id : ID
  food_id : ID
  count : Int
  add_time : NaiveDateTime
deriving DecidableEq, Repr

/-- src/types.rs `SortCartBy`. -/
inductive SortCartBy where
  | Count
  | AddTime
deriving DecidableEq, Repr

/-- src/types.rs `SortCartBy::cmp` (see `SortFoodBy.cmp` about `compareOfLessAndEq`). -/
def SortCartBy.cmp : SortCartBy → IndexedCartItem → IndexedCartItem → Ordering
  | .Count, lhs, rhs => compareOfLessAndEq lhs.count rhs.count
  | .AddTime, lhs, rhs => compareOfLessAndEq lhs.add_time rhs.add_time

/-- src/types.rs `CartItem`. -/
structure CartItem where
  food : Food
  indexed_cart_item : IndexedCartItem
  total_price : Decimal
deriving DecidableEq, Repr

/-- src/types.rs `Cart`. -/
structure Cart where
  items : List CartItem
  total_price : Decimal
deriving DecidableEq, Repr

/-- src/types.rs `IndexedFavorite`. -/
structure IndexedFavorite where
  id : ID
  food_id : ID
  add_time : NaiveDateTime
deriving DecidableEq, Repr

/-- src/types.rs `Favorite`. -/
structure Favorite where
  food : Food
  indexed_favorite : IndexedFavorite
deriving DecidableEq, Repr

/-- src/types.rs `Address`. -/
structure Address where
  id : ID
  locality : String
  street : String
  house : Int
  corps : Option String
  apartment : Option String
deriving DecidableEq, Repr

/-- src/types.rs `IndexedOrder`. -/
structure IndexedOrder where
  id : ID
  customer_id : ID
  address_id : ID
  create_time : NaiveDateTime
  rider_id : Option ID
  completed_time : Option NaiveDateTime
deriving DecidableEq, Repr

/-- src/types.rs `OrdersFilter`. -/
inductive OrdersFilter where
  | All
  | InProgress
  | Completed
deriving DecidableEq, Repr

/-- src/types.rs `OrdersFilter::fits`. -/
def OrdersFilter.fits : OrdersFilter → IndexedOrder → Bool
  | .All, _ => true
  | .InProgress, order => order.rider_id.isSome && order.completed_time.isNone
  | .Completed, order => order.completed_time.isSome

/-- src/types.rs `IndexedOrderItem`. -/
structure IndexedOrderItem where
  id : ID
  food_id : ID
  count : Int
deriving DecidableEq, Repr

/-- src/types.rs `OrderItem`. -/
structure OrderItem where
  food : Food
  indexed_item : IndexedOrderItem
  total_price : Decimal
deriving DecidableEq, Repr

/-- src/types.rs `Feedback`. -/
structure Feedback where
  id : ID
  order_id : ID
  rating : Option Int
  comment : Option String
deriving DecidableEq, Repr

/-- src/types.rs `Order`: a fully hydrated order. -/
structure Order where
  customer : User
  address : Address
  rider : Option User
  items : List OrderItem
  total_price : Decimal
  feedback : Option Feedback
  indexed_order : IndexedOrder
deriving DecidableEq, Repr

/-! ## Keyed maps

`std::collections::HashMap<ID, V>` as used by src/db.rs: built by repeated
overwriting `insert`, then read and consumed via `get`/`remove` by key. -/

/-- `HashMap::get` by key. -/
def alistGet {α : Type} (m : List (ID × α)) (k : ID) : Option α :=
  (m.find? (fun p => p.1 == k)).map (·.2)

/-- `HashMap::remove` by key (a `HashMap` holds each key at most once, so
deleting every binding of `k` agrees with it on every reachable map). -/
def alistRemove {α : Type} (m : List (ID × α)) (k : ID) : List (ID × α) :=
  m.filter (fun p => p.1 != k)

/-- `HashMap::insert`: overwrites the previous binding of the key. -/
def alistInsert {α : Type} (m : List (ID × α)) (k : ID) (v : α) : List (ID × α) :=
  (k, v) :: alistRemove m k

/-- `categories.into_iter().map(|c| (c.id, c)).collect::<HashMap<_, _>>()`
(src/db.rs `query_food`, lines 552-557). -/
def categoriesMap (categories : List Category) : List (ID × Category) :=
  categories.foldl (fun m category => alistInsert m category.id category) []

/-- The merging loop of src/db.rs `query_food` (lines 561-576): resolve each
food row's category or fail with the consistency fault, building the keyed
food map. -/
def food_merge_loop (categories : List (ID × Category)) (food : List (ID × Food)) :
    List IndexedFood → Except DbError (List (ID × Food))
  | [] => .ok food
  | indexed_food :: rest =>
    match alistGet categories indexed_food.category_id with
    | none => .error consistencyFault
    | some category =>
      food_merge_loop categories (alistInsert food indexed_food.id ⟨category, indexed_food⟩) rest

/-- src/db.rs `query_food` (lines 547-577), with the two fetch results as
explicit arguments: awaiting `categories()` and the food query each propagates
a store failure via `?`. -/
def query_food (categoriesRes : Except DbError (List Category))
    (rowsRes : Except DbError (List IndexedFood)) : Except DbError (List (ID × Food)) :=
  match categoriesRes with
  | .error e => .error e
  | .ok categories =>
    match rowsRes with
    | .error e => .error e
    | .ok indexed_food => food_merge_loop (categoriesMap categories) [] indexed_food

/-- The merging loop of src/db.rs `user_cart` (lines 358-370): move each cart
row's food out of the map (or fail with the consistency fault) and compute the
line's total price. -/
def cart_merge (food : List (ID × Food)) :
    List IndexedCartItem → Except DbError (List CartItem)
  | [] => .ok []
  | indexed_cart_item :: rest =>
    match alistGet food indexed_cart_item.food_id with
    | none => .error consistencyFault
    | some f =>
      match cart_merge (alistRemove food indexed_cart_item.food_id) rest with
      | .error e => .error e
      | .ok items =>
        .ok ({ food := f, indexed_cart_item,
               total_price := f.indexed_food.price * (indexed_cart_item.count : ℚ) } :: items)

/-- The merging loop of src/db.rs `user_favorites` (lines 288-299). -/
def favorites_merge (food : List (ID × Food)) :
    List IndexedFavorite → Except DbError (List Favorite)
  | [] => .ok []
  | indexed_favorite :: rest =>
    match alistGet food indexed_favorite.food_id with
    | none => .error consistencyFault
    | some f =>
      match favorites_merge (alistRemove food indexed_favorite.food_id) rest with
      | .error e => .error e
      | .ok favorites => .ok ({ food := f, indexed_favorite } :: favorites)

/-- The merging loop of src/db.rs `order_items` (lines 623-636). -/
def items_merge (food : List (ID × Food)) :
    List IndexedOrderItem → Except DbError (List OrderItem)
  | [] => .ok []
  | indexed_item :: rest =>
    match alistGet food indexed_item.food_id with
    | none => .error consistencyFault
    | some f =>
      match items_merge (alistRemove food indexed_item.food_id) rest with
      | .error e => .error e
      | .ok items =>
        .ok ({ food := f, indexed_item,
               total_price := f.indexed_food.price * (indexed_item.count : ℚ) } :: items)

/-- The post-fetch sorting step of src/db.rs `food_in_category` (lines 217-220):
a stable sort by the selected comparator (Rust `sort_by`; a stable sort's
output is uniquely determined by the comparator, so `List.insertionSort`
computes it), then a reversal when the direction is `Descending`. -/
def sortFood (sort_by : SortFoodBy) (sort_order : SortOrder)
    (food : List IndexedFood) : List IndexedFood :=
  let sorted := List.insertionSort (fun lhs rhs => sort_by.cmp lhs rhs ≠ Ordering.gt) food
  match sort_order with
  | .Ascending => sorted
  | .Descending => sorted.reverse

/-- The sorting step of src/db.rs `user_cart` (lines 353-356), identical in
shape to the one of `food_in_category`. -/
def sortCart (sort_by : SortCartBy) (sort_order : SortOrder)
    (cart : List IndexedCartItem) : List IndexedCartItem :=
  let sorted := List.insertionSort (fun lhs rhs => sort_by.cmp lhs rhs ≠ Ordering.gt) cart
  match sort_order with
  | .Ascending => sorted
  | .Descending => sorted.reverse

/-! ## The relational store

The tables touched by the embedded operations.  Ownership columns that the
entity structs do not carry (`user_id` on cart rows, favorites and addresses,
`order_id` on order line items) are the first component of a pair. -/

/-- The relational store: one list per table, the sequence value used for
freshly inserted identifiers, and the current clock used for inserted
timestamps. -/
structure DbState where
  users : List User
  categories : List Category
  food : List IndexedFood
  addresses : List (ID × Address)
  favorites : List (ID × IndexedFavorite)
  cart : List (ID × IndexedCartItem)
  orders : List IndexedOrder
  order_food : List (ID × IndexedOrderItem)
  feedback : List Feedback
  next_id : ID
  now : NaiveDateTime
deriving DecidableEq, Repr

/-- Modelled from the spec: sql/select/user_by_name.sql — the row of the user
with the given (unique) username. -/
def select_user_by_name (s : DbState) (username : String) : Option User :=
  s.users.find? (fun user => user.username == username)

/-- src/db.rs `user_by_name`: `query_one` fails as a store error when no row
matches (spec §7: a single required record missing means failure). -/
def user_by_name (s : DbState) (username : String) : Except DbError User :=
  match select_user_by_name s username with
  | some user => .ok user
  | none => .error (.store "query returned an unexpected number of rows")

/-- src/db.rs `user_id_by_name`. -/
def user_id_by_name (s : DbState) (username : String) : Except DbError ID :=
  match user_by_name s username with
  | .error e => .error e
  | .ok user => .ok user.id

/-- src/db.rs `user_by_id` (Modelled from the spec: sql/select/user_by_id.sql). -/
def user_by_id (s : DbState) (id : ID) : Except DbError User :=
  match s.users.find? (fun user => user.id == id) with
  | some user => .ok user
  | none => .error (.store "query returned an unexpected number of rows")

/-- src/db.rs `address_by_id` (Modelled from the spec: sql/select/address_by_id.sql). -/
def address_by_id (s : DbState) (id : ID) : Except DbError Address :=
  match s.addresses.find? (fun p => p.2.id == id) with
  | some p => .ok p.2
  | none => .error (.store "query returned an unexpected number of rows")

/-- Modelled from the spec: sql/select/user_cart.sql — the cart rows owned by
the user. -/
def select_user_cart (s : DbState) (user_id : ID) : List IndexedCartItem :=
  (s.cart.filter (fun p => p.1 == user_id)).map (·.2)

/-- Modelled from the spec: sql/select/food_in_user_cart.sql — the food rows
referenced by the user's cart. -/
def select_food_in_user_cart (s : DbState) (user_id : ID) : List IndexedFood :=
  s.food.filter (fun f => (select_user_cart s user_id).any (fun item => item.food_id == f.id))

/-- Modelled from the spec: sql/select/user_favorites.sql. -/
def select_user_favorites (s : DbState) (user_id : ID) : List IndexedFavorite :=
  (s.favorites.filter (fun p => p.1 == user_id)).map (·.2)

/-- Modelled from the spec: sql/select/user_favorite_food.sql. -/
def select_user_favorite_food (s : DbState) (user_id : ID) : List IndexedFood :=
  s.food.filter (fun f => (select_user_favorites s user_id).any (fun fav => fav.food_id == f.id))

/-- Modelled from the spec: sql/select/food_in_category.sql. -/
def select_food_in_category (s : DbState) (category_id : ID) : List IndexedFood :=
  s.food.filter (fun f => f.category_id == category_id)

/-- Modelled from the spec: sql/select/order_items.sql — the line items of an
order. -/
def select_order_items (s : DbState) (order_id : ID) : List IndexedOrderItem :=
  (s.order_food.filter (fun p => p.1 == order_id)).map (·.2)

/-- Modelled from the spec: sql/select/order_food.sql — the food rows
referenced by an order's line items. -/
def select_order_food (s : DbState) (order_id : ID) : List IndexedFood :=
  s.food.filter (fun f => (select_order_items s order_id).any (fun item => item.food_id == f.id))

/-- Modelled from the spec: sql/select/user_order.sql — the order with the
given identifier owned by the given customer (src/db.rs `add_user_feedback`). -/
def select_user_order (s : DbState) (user_id : ID) (order_id : ID) : List IndexedOrder :=
  s.orders.filter (fun o => o.customer_id == user_id && o.id == order_id)

/-- src/db.rs `order_feedback`: `query_opt` over
sql/select/order_feedback.sql (Modelled from the spec: at most one feedback
per order). -/
def order_feedback (s : DbState) (order_id : ID) : Option Feedback :=
  s.feedback.find? (fun f => f.order_id == order_id)

/-- src/db.rs `query_food` applied to the store: both fetches succeed against
a reachable state. -/
def query_food_state (s : DbState) (rows : List IndexedFood) : Except DbError (List (ID × Food)) :=
  query_food (.ok s.categories) (.ok rows)

/-- src/db.rs `food_in_category` (lines 203-222): fetch the category's food,
then sort post-fetch. -/
def food_in_category (s : DbState) (category_id : ID) (sort_by : SortFoodBy)
    (sort_order : SortOrder) : List IndexedFood :=
  sortFood sort_by sort_order (select_food_in_category s category_id)

/-- src/db.rs `user_cart` (lines 334-375). -/
def user_cart (s : DbState) (username : String) (sort_by : SortCartBy)
    (sort_order : SortOrder) : Except DbError Cart :=
  match user_id_by_name s username with
  | .error e => .error e
  | .ok user_id =>
    match query_food_state s (select_food_in_user_cart s user_id) with
    | .error e => .error e
    | .ok food =>
      match cart_merge food (sortCart sort_by sort_order (select_user_cart s user_id)) with
      | .error e => .error e
      | .ok items => .ok { items, total_price := (items.map (·.total_price)).sum }

/-- src/db.rs `user_favorites` (lines 274-300). -/
def user_favorites (s : DbState) (username : String) : Except DbError (List Favorite) :=
  match user_id_by_name s username with
  | .error e => .error e
  | .ok user_id =>
    match query_food_state s (select_user_favorite_food s user_id) with
    | .error e => .error e
    | .ok food => favorites_merge food (select_user_favorites s user_id)

/-- src/db.rs `order_items` (lines 613-637). -/
def order_items (s : DbState) (order_id : ID) : Except DbError (List OrderItem) :=
  match query_food_state s (select_order_food s order_id) with
  | .error e => .error e
  | .ok food => items_merge food (select_order_items s order_id)

/-- The hydration of one raw order row by src/db.rs `query_orders`
(lines 595-609): line items, customer, address, optional rider and optional
feedback, and the grand total summed from the items. -/
def hydrate_order (s : DbState) (indexed_order : IndexedOrder) : Except DbError Order :=
  match order_items s indexed_order.id with
  | .error e => .error e
  | .ok items =>
    match user_by_id s indexed_order.customer_id with
    | .error e => .error e
    | .ok customer =>
      match address_by_id s indexed_order.address_id with
      | .error e => .error e
      | .ok address =>
        let riderRes : Except DbError (Option User) :=
          match indexed_order.rider_id with
          | some id =>
            match user_by_id s id with
            | .error e => .error e
            | .ok rider => .ok (some rider)
          | none => .ok none
        match riderRes with
        | .error e => .error e
        | .ok rider =>
          .ok { customer, address, rider,
                total_price := (items.map (·.total_price)).sum,
                items, feedback := order_feedback s indexed_order.id, indexed_order }

/-- The hydration loop of src/db.rs `query_orders` over the already filtered
rows. -/
def hydrate_orders (s : DbState) : List IndexedOrder → Except DbError (List Order)
  | [] => .ok []
  | indexed_order :: rest =>
    match hydrate_order s indexed_order with
    | .error e => .error e
    | .ok order =>
      match hydrate_orders s rest with
      | .error e => .error e
      | .ok tail => .ok (order :: tail)

/-- src/db.rs `query_orders` (lines 579-611): the status filter is applied to
the raw fetched rows, then each surviving row is hydrated. -/
def query_orders (s : DbState) (rows : List IndexedOrder) (filter : OrdersFilter) :
    Except DbError (List Order) :=
  hydrate_orders s (rows.filter (fun order => filter.fits order))

/-- src/db.rs `orders` (Modelled from the spec: sql/select/orders.sql fetches
every order row). -/
def orders (s : DbState) (filter : OrdersFilter) : Except DbError (List Order) :=
  query_orders s s.orders filter

/-- src/db.rs `user_orders` (Modelled from the spec: sql/select/user_orders.sql
fetches the rows whose customer is the user). -/
def user_orders (s : DbState) (username : String) (filter : OrdersFilter) :
    Except DbError (List Order) :=
  match user_id_by_name s username with
  | .error e => .error e
  | .ok user_id => query_orders s (s.orders.filter (fun o => o.customer_id == user_id)) filter

/-- Modelled from the spec: sql/insert/user_order.sql — create the order
header with customer = acting user, the proposed delivery address, the current
timestamp, rider unset and completion unset; returns the fresh identifier. -/
def insert_user_order (s : DbState) (user_id : ID) (address_id : ID) : ID × DbState :=
  (s.next_id,
   { s with
     orders := s.orders ++ [{ id := s.next_id, customer_id := user_id, address_id,
                              create_time := s.now, rider_id := none, completed_time := none }],
     next_id := s.next_id + 1 })

/-- Modelled from the spec: sql/insert/order_food.sql — create one order line
item carrying the given food reference and quantity. -/
def insert_order_food (s : DbState) (order_id : ID) (food_id : ID) (count : Int) : DbState :=
  { s with
    order_food := s.order_food ++ [(order_id, { id := s.next_id, food_id, count })],
    next_id := s.next_id + 1 }

/-- Modelled from the spec: sql/delete/user_cart_all.sql — delete all of the
user's cart lines. -/
def delete_user_cart_all (s : DbState) (user_id : ID) : DbState :=
  { s with cart := s.cart.filter (fun p => p.1 != user_id) }

/-- src/db.rs `make_order_from_user_cart` (lines 423-462): resolve the acting
user, load their cart (sorted by add time, ascending), reject an empty cart,
create the order header reading only `address_id` from the proposed order,
insert one line item per cart line, then delete the user's cart lines. -/
def make_order_from_user_cart (s : DbState) (username : String) (order : IndexedOrder) :
    Except DbError (ID × DbState) :=
  match user_id_by_name s username with
  | .error e => .error e
  | .ok user_id =>
    match user_cart s username .AddTime .Ascending with
    | .error e => .error e
    | .ok cart =>
      if cart.items.isEmpty then .error (.message "user cart is empty")
      else
        let (order_id, s1) := insert_user_order s user_id order.address_id
        let s2 := cart.items.foldl
          (fun st item =>
            insert_order_food st order_id item.indexed_cart_item.food_id
              item.indexed_cart_item.count) s1
        .ok (order_id, delete_user_cart_all s2 user_id)

/-- Modelled from the spec: sql/insert/feedback.sql — the store enforces the
one-to-one Order-to-Feedback relationship (§3), so inserting a second feedback
for the same order fails as a store (constraint) error; otherwise the feedback
row is created with a fresh identifier. -/
def insert_feedback (s : DbState) (feedback : Feedback) : Except DbError (ID × DbState) :=
  if s.feedback.any (fun f => f.order_id == feedback.order_id) then
    .error (.store "duplicate key value violates unique constraint")
  else
    .ok (s.next_id,
         { s with
           feedback := s.feedback ++ [{ id := s.next_id, order_id := feedback.order_id,
                                        rating := feedback.rating, comment := feedback.comment }],
           next_id := s.next_id + 1 })

/-- src/db.rs `add_user_feedback` (lines 494-527): require rating and/or
comment, require a completed order with the given identifier owned by the
acting user, then insert. -/
def add_user_feedback (s : DbState) (username : String) (feedback : Feedback) :
    Except DbError (ID × DbState) :=
  if feedback.rating.isNone && feedback.comment.isNone then
    .error (.message "either rating or comment must be provided")
  else
    match user_id_by_name s username with
    | .error e => .error e
    | .ok user_id =>
      match query_orders s (select_user_order s user_id feedback.order_id) .Completed with
      | .error e => .error e
      | .ok found =>
        match found.head? with
        | none => .error (.message "there is no completed order with such ID that owned by the user")
        | some _ => insert_feedback s feedback

/-- src/db.rs `take_order` (lines 464-472).  Modelled from the spec:
sql/update/untaken_order.sql assigns the rider to an order that currently has
no rider and is not completed (§4.4 Take); `execute` reports the number of
affected rows, mapped to `rows != 0`. -/
def take_order (s : DbState) (username : String) (id : ID) : Except DbError (Bool × DbState) :=
  match user_id_by_name s username with
  | .error e => .error e
  | .ok user_id =>
    let eligible := fun (o : IndexedOrder) => o.id == id && o.rider_id.isNone && o.completed_time.isNone
    .ok ((s.orders.filter eligible).length != 0,
         { s with orders := s.orders.map (fun o => if eligible o then { o with rider_id := some user_id } else o) })

/-- src/db.rs `complete_order` (lines 474-482).  Modelled from the spec:
sql/update/taken_order.sql completes the caller's own claimed, uncompleted
order (§4.4 Complete). -/
def complete_order (s : DbState) (username : String) (id : ID) : Except DbError (Bool × DbState) :=
  match user_id_by_name s username with
  | .error e => .error e
  | .ok user_id =>
    let eligible := fun (o : IndexedOrder) =>
      o.id == id && o.rider_id == some user_id && o.completed_time.isNone
    .ok ((s.orders.filter eligible).length != 0,
         { s with orders := s.orders.map (fun o => if eligible o then { o with completed_time := some s.now } else o) })

/-- src/db.rs `delete_untaken_user_order` (lines 484-492).  Modelled from the
spec: sql/delete/untaken_user_order.sql deletes the customer's own order while
it is still unclaimed (§4.4 Cancel). -/
def delete_untaken_user_order (s : DbState) (username : String) (id : ID) :
    Except DbError (Bool × DbState) :=
  match user_id_by_name s username with
  | .error e => .error e
  | .ok user_id =>
    let eligible := fun (o : IndexedOrder) =>
      o.customer_id == user_id && o.id == id && o.rider_id.isNone
    .ok ((s.orders.filter eligible).length != 0,
         { s with orders := s.orders.filter (fun o => !eligible o) })

/-- src/db.rs `delete_user_address` (lines 165-173).  Modelled from the spec:
sql/delete/user_address.sql deletes the user's own address with the given
identifier. -/
def delete_user_address (s : DbState) (username : String) (id : ID) :
    Except DbError (Bool × DbState) :=
  match user_id_by_name s username with
  | .error e => .error e
  | .ok user_id =>
    let eligible := fun (p : ID × Address) => p.1 == user_id && p.2.id == id
    .ok ((s.addresses.filter eligible).length != 0,
         { s with addresses := s.addresses.filter (fun p => !eligible p) })

/-- src/db.rs `delete_user_favorite` (lines 316-324).  Modelled from the spec:
sql/delete/user_favorite.sql deletes the user's own favorite with the given
identifier. -/
def delete_user_favorite (s : DbState) (username : String) (id : ID) :
    Except DbError (Bool × DbState) :=
  match user_id_by_name s username with
  | .error e => .error e
  | .ok user_id =>
    let eligible := fun (p : ID × IndexedFavorite) => p.1 == user_id && p.2.id == id
    .ok ((s.favorites.filter eligible).length != 0,
         { s with favorites := s.favorites.filter (fun p => !eligible p) })

/-- src/db.rs `delete_user_cart_item` (lines 395-403).  Modelled from the spec:
sql/delete/user_cart.sql deletes the user's own cart line with the given
identifier. -/
def delete_user_cart_item (s : DbState) (username : String) (id : ID) :
    Except DbError (Bool × DbState) :=
  match user_id_by_name s username with
  | .error e => .error e
  | .ok user_id =>
    let eligible := fun (p : ID × IndexedCartItem) => p.1 == user_id && p.2.id == id
    .ok ((s.cart.filter eligible).length != 0,
         { s with cart := s.cart.filter (fun p => !eligible p) })

/-- src/db.rs `set_user_role` (lines 87-95).  Modelled from the spec:
sql/update/user_role.sql sets the role of the user with the resolved
identifier. -/
def set_user_role (s : DbState) (username : String) (role : UserRole) :
    Except DbError (Bool × DbState) :=
  match user_id_by_name s username with
  | .error e => .error e
  | .ok user_id =>
    let eligible := fun (u : User) => u.id == user_id
    .ok ((s.users.filter eligible).length != 0,
         { s with users := s.users.map (fun u => if eligible u then { u with role } else u) })

/-! ## Concrete fixtures used by the witnesses -/

/-- A concrete category. -/
def wCategory : Category := { id := 10, title := "Category", description := none }

/-- A concrete food row priced 5.00. -/
def wFoodA : IndexedFood :=
  { id := 20, title := "A", description := none, category_id := 10,
    count := 7, is_alcohol := false, price := 5 }

/-- A concrete food row priced 3.50. -/
def wFoodB : IndexedFood :=
  { id := 21, title := "B", description := none, category_id := 10,
    count := 4, is_alcohol := false, price := 7/2 }

/-- The acting customer. -/
def wCustomer : User :=
  { id := 1, username := "alice", password := "x", first_name := none,
    last_name := none, birth_date := 0, role := .Customer }

/-- A rider. -/
def wRider : User :=
  { id := 2, username := "bob", password := "y", first_name := none,
    last_name := none, birth_date := 0, role := .Rider }

/-- The customer's address. -/
def wAddress : Address :=
  { id := 30, locality := "L", street := "S", house := 1, corps := none, apartment := none }

/-- A completed order of the customer, delivered by the rider. -/
def wCompletedOrder : IndexedOrder :=
  { id := 60, customer_id := 1, address_id := 30, create_time := 10,
    rider_id := some 2, completed_time := some 20 }

/-- A concrete store: the customer's cart holds 2 of `wFoodA` (5.00 each) and
1 of `wFoodB` (3.50); one completed order already exists. -/
def wState : DbState :=
  { users := [wCustomer, wRider],
    categories := [wCategory],
    food := [wFoodA, wFoodB],
    addresses := [(1, wAddress)],
    favorites := [(1, { id := 50, food_id := 20, add_time := 0 })],
    cart := [(1, { id := 40, food_id := 20, count := 2, add_time := 0 }),
             (1, { id := 41, food_id := 21, count := 1, add_time := 1 })],
    orders := [wCompletedOrder],
    order_food := [(60, { id := 61, food_id := 20, count := 2 })],
    feedback := [],
    next_id := 100,
    now := 90 }

/-- The customer's assembled cart in `wState`. -/
def wCart : Cart :=
  match user_cart wState "alice" .AddTime .Ascending with
  | .ok cart => cart
  | .error _ => { items := [], total_price := 0 }

/-- The rider's (empty) assembled cart in `wState`. -/
def wEmptyCart : Cart :=
  match user_cart wState "bob" .AddTime .Ascending with
  | .ok cart => cart
  | .error _ => { items := [], total_price := 1 }

/-- The hydrated completed orders of `wState`. -/
def wOrders : List Order :=
  match query_orders wState wState.orders .Completed with
  | .ok os => os
  | .error _ => []

/-- A proposed order input referencing the customer's address. -/
def wOrderInput : IndexedOrder :=
  { id := 0, customer_id := 1, address_id := 30, create_time := 0,
    rider_id := none, completed_time := none }

/-- The same proposed order with different customer, creation time, rider and
completion fields. -/
def wOrderInputAlt : IndexedOrder :=
  { id := 0, customer_id := 99, address_id := 30, create_time := 55,
    rider_id := some 3, completed_time := some 77 }

/-- A feedback submission (rating only) for the completed order. -/
def wFeedback : Feedback := { id := 0, order_id := 60, rating := some 5, comment := none }

/-- A one-entry keyed food map. -/
def wFoodMap : List (ID × Food) := [(20, { category := wCategory, indexed_food := wFoodA })]

/-- The merged cart line over `wFoodMap`. -/
def wMergedCartItems : List CartItem :=
  match cart_merge wFoodMap [{ id := 40, food_id := 20, count := 2, add_time := 0 }] with
  | .ok items => items
  | .error _ => []

/-- The merged favorite over `wFoodMap`. -/
def wMergedFavorites : List Favorite :=
  match favorites_merge wFoodMap [{ id := 50, food_id := 20, add_time := 0 }] with
  | .ok favorites => favorites
  | .error _ => []

/-- The merged order line over `wFoodMap`. -/
def wMergedOrderItems : List OrderItem :=
  match items_merge wFoodMap [{ id := 61, food_id := 20, count := 2 }] with
  | .ok items => items
  | .error _ => []

/-- The hydrated completed order of `wState`. -/
def wHydratedOrder : Order :=
  match query_orders wState wState.orders .Completed with
  | .ok (o :: _) => o
  | _ => { customer := wCustomer, address := wAddress, rider := none, items := [],
           total_price := 0, feedback := none, indexed_order := wCompletedOrder }

/-! ## Helper lemmas: keyed maps -/

theorem alistGet_cons {α : Type} (p : ID × α) (t : List (ID × α)) (k : ID) :
    alistGet (p :: t) k = if p.1 = k then some p.2 else alistGet t k := by
  by_cases h : p.1 = k
  · rw [if_pos h]
    unfold alistGet
    rw [List.find?_cons_of_pos _ (by simp [h])]
    rfl
  · rw [if_neg h]
    unfold alistGet
    rw [List.find?_cons_of_neg _ (by simp [h])]

theorem alistRemove_cons {α : Type} (p : ID × α) (t : List (ID × α)) (k : ID) :
    alistRemove (p :: t) k = if p.1 = k then alistRemove t k else p :: alistRemove t k := by
  by_cases h : p.1 = k <;> simp [alistRemove, List.filter_cons, h]

theorem alistGet_remove_self {α : Type} (m : List (ID × α)) (k : ID) :
    alistGet (alistRemove m k) k = none := by
  induction m with
  | nil => rfl
  | cons p t ih =>
    rw [alistRemove_cons]
    by_cases h : p.1 = k
    · rwa [if_pos h]
    · rw [if_neg h, alistGet_cons, if_neg h]
      exact ih

theorem alistGet_remove_ne {α : Type} (m : List (ID × α)) (k k' : ID) (h : k' ≠ k) :
    alistGet (alistRemove m k) k' = alistGet m k' := by
  induction m with
  | nil => rfl
  | cons p t ih =>
    rw [alistRemove_cons]
    by_cases hp : p.1 = k
    · rw [if_pos hp, alistGet_cons, if_neg (by rw [hp]; exact fun e => h e.symm)]
      exact ih
    · rw [if_neg hp, alistGet_cons, alistGet_cons]
      by_cases hp' : p.1 = k'
      · rw [if_pos hp', if_pos hp']
      · rw [if_neg hp', if_neg hp']
        exact ih

theorem alistGet_insert_ne {α : Type} (m : List (ID × α)) (k k' : ID) (v : α) (h : k' ≠ k) :
    alistGet (alistInsert m k v) k' = alistGet m k' := by
  unfold alistInsert
  rw [alistGet_cons, if_neg (fun e => h e.symm)]
  exact alistGet_remove_ne m k k' h

theorem alistGet_some_of_remove {α : Type} (m : List (ID × α)) (k k' : ID) (v : α)
    (h : alistGet (alistRemove m k) k' = some v) : alistGet m k' = some v := by
  by_cases hk : k' = k
  · rw [hk, alistGet_remove_self] at h
    cases h
  · rwa [alistGet_remove_ne m k k' hk] at h

/-! ## Helper lemmas: the merging loops -/

theorem cart_merge_missing (food : List (ID × Food)) (rows : List IndexedCartItem)
    (h : ∃ i ∈ rows, alistGet food i.food_id = none) :
    cart_merge food rows = .error consistencyFault := by
  induction rows generalizing food with
  | nil => simp at h
  | cons i t ih =>
    obtain ⟨j, hj, hnone⟩ := h
    rcases List.mem_cons.1 hj with rfl | hjt
    · unfold cart_merge
      rw [hnone]
    · cases hget : alistGet food i.food_id with
      | none =>
        unfold cart_merge
        rw [hget]
      | some f =>
        have hj' : alistGet (alistRemove food i.food_id) j.food_id = none := by
          by_cases hk : j.food_id = i.food_id
          · rw [hk]
            exact alistGet_remove_self ..
          · rw [alistGet_remove_ne _ _ _ hk]
            exact hnone
        unfold cart_merge
        rw [hget, ih _ ⟨j, hjt, hj'⟩]

theorem cart_merge_mem_isSome (food : List (ID × Food)) (rows : List IndexedCartItem)
    (items : List CartItem) (h : cart_merge food rows = .ok items) :
    ∀ it ∈ items, (alistGet food it.indexed_cart_item.food_id).isSome := by
  induction rows generalizing food items with
  | nil =>
    cases h
    intro it hit
    simp at hit
  | cons i t ih =>
    unfold cart_merge at h
    cases hget : alistGet food i.food_id with
    | none => rw [hget] at h; cases h
    | some f =>
      rw [hget] at h
      cases hrec : cart_merge (alistRemove food i.food_id) t with
      | error e => rw [hrec] at h; cases h
      | ok tail =>
        rw [hrec] at h
        cases h
        intro it hit
        rcases List.mem_cons.1 hit with rfl | hta
        · simp [hget]
        · obtain ⟨v, hv⟩ := Option.isSome_iff_exists.1 (ih _ _ hrec it hta)
          simp [alistGet_some_of_remove _ _ _ _ hv]

theorem cart_merge_nodup (food : List (ID × Food)) (rows : List IndexedCartItem)
    (items : List CartItem) (h : cart_merge food rows = .ok items) :
    (items.map (fun it => it.indexed_cart_item.food_id)).Nodup := by
  induction rows generalizing food items with
  | nil => cases h; simp
  | cons i t ih =>
    unfold cart_merge at h
    cases hget : alistGet food i.food_id with
    | none => rw [hget] at h; cases h
    | some f =>
      rw [hget] at h
      cases hrec : cart_merge (alistRemove food i.food_id) t with
      | error e => rw [hrec] at h; cases h
      | ok tail =>
        rw [hrec] at h
        cases h
        simp only [List.map_cons, List.nodup_cons]
        refine ⟨fun hmem => ?_, ih _ _ hrec⟩
        obtain ⟨it, hit, hfid⟩ := List.mem_map.1 hmem
        have := cart_merge_mem_isSome _ _ _ hrec it hit
        rw [hfid, alistGet_remove_self] at this
        cases this

theorem cart_merge_dup (food : List (ID × Food)) (rows : List IndexedCartItem)
    (h : ¬ (rows.map (fun i => i.food_id)).Nodup) :
    cart_merge food rows = .error consistencyFault := by
  induction rows generalizing food with
  | nil => simp at h
  | cons i t ih =>
    cases hget : alistGet food i.food_id with
    | none =>
      unfold cart_merge
      rw [hget]
    | some f =>
      simp only [List.map_cons, List.nodup_cons, not_and_or] at h
      rcases h with hmem | ht
      · rw [not_not] at hmem
        obtain ⟨j, hjt, hfid⟩ := List.mem_map.1 hmem
        have hj' : alistGet (alistRemove food i.food_id) j.food_id = none := by
          rw [hfid]
          exact alistGet_remove_self ..
        unfold cart_merge
        rw [hget, cart_merge_missing _ _ ⟨j, hjt, hj'⟩]
      · unfold cart_merge
        rw [hget, ih _ ht]

theorem cart_merge_total_price (food : List (ID × Food)) (rows : List IndexedCartItem)
    (items : List CartItem) (h : cart_merge food rows = .ok items) :
    ∀ it ∈ items, it.total_price = it.food.indexed_food.price * (it.indexed_cart_item.count : ℚ) := by
  induction rows generalizing food items with
  | nil => cases h; simp
  | cons i t ih =>
    unfold cart_merge at h
    cases hget : alistGet food i.food_id with
    | none => rw [hget] at h; cases h
    | some f =>
      rw [hget] at h
      cases hrec : cart_merge (alistRemove food i.food_id) t with
      | error e => rw [hrec] at h; cases h
      | ok tail =>
        rw [hrec] at h
        cases h
        intro it hit
        rcases List.mem_cons.1 hit with rfl | hta
        · rfl
        · exact ih _ _ hrec it hta

theorem favorites_merge_missing (food : List (ID × Food)) (rows : List IndexedFavorite)
    (h : ∃ i ∈ rows, alistGet food i.food_id = none) :
    favorites_merge food rows = .error consistencyFault := by
  induction rows generalizing food with
  | nil => simp at h
  | cons i t ih =>
    obtain ⟨j, hj, hnone⟩ := h
    rcases List.mem_cons.1 hj with rfl | hjt
    · unfold favorites_merge
      rw [hnone]
    · cases hget : alistGet food i.food_id with
      | none =>
        unfold favorites_merge
        rw [hget]
      | some f =>
        have hj' : alistGet (alistRemove food i.food_id) j.food_id = none := by
          by_cases hk : j.food_id = i.food_id
          · rw [hk]
            exact alistGet_remove_self ..
          · rw [alistGet_remove_ne _ _ _ hk]
            exact hnone
        unfold favorites_merge
        rw [hget, ih _ ⟨j, hjt, hj'⟩]

theorem favorites_merge_mem_isSome (food : List (ID × Food)) (rows : List IndexedFavorite)
    (favorites : List Favorite) (h : favorites_merge food rows = .ok favorites) :
    ∀ f ∈ favorites, (alistGet food f.indexed_favorite.food_id).isSome := by
  induction rows generalizing food favorites with
  | nil =>
    cases h
    intro f hf
    simp at hf
  | cons i t ih =>
    unfold favorites_merge at h
    cases hget : alistGet food i.food_id with
    | none => rw [hget] at h; cases h
    | some f =>
      rw [hget] at h
      cases hrec : favorites_merge (alistRemove food i.food_id) t with
      | error e => rw [hrec] at h; cases h
      | ok tail =>
        rw [hrec] at h
        cases h
        intro fav hfav
        rcases List.mem_cons.1 hfav with rfl | hta
        · simp [hget]
        · obtain ⟨v, hv⟩ := Option.isSome_iff_exists.1 (ih _ _ hrec fav hta)
          simp [alistGet_some_of_remove _ _ _ _ hv]

theorem favorites_merge_nodup (food : List (ID × Food)) (rows : List IndexedFavorite)
    (favorites : List Favorite) (h : favorites_merge food rows = .ok favorites) :
    (favorites.map (fun f => f.indexed_favorite.food_id)).Nodup := by
  induction rows generalizing food favorites with
  | nil => cases h; simp
  | cons i t ih =>
    unfold favorites_merge at h
    cases hget : alistGet food i.food_id with
    | none => rw [hget] at h; cases h
    | some f =>
      rw [hget] at h
      cases hrec : favorites_merge (alistRemove food i.food_id) t with
      | error e => rw [hrec] at h; cases h
      | ok tail =>
        rw [hrec] at h
        cases h
        simp only [List.map_cons, List.nodup_cons]
        refine ⟨fun hmem => ?_, ih _ _ hrec⟩
        obtain ⟨fav, hfav, hfid⟩ := List.mem_map.1 hmem
        have := favorites_merge_mem_isSome _ _ _ hrec fav hfav
        rw [hfid, alistGet_remove_self] at this
        cases this

theorem favorites_merge_dup (food : List (ID × Food)) (rows : List IndexedFavorite)
    (h : ¬ (rows.map (fun i => i.food_id)).Nodup) :
    favorites_merge food rows = .error consistencyFault := by
  induction rows generalizing food with
  | nil => simp at h
  | cons i t ih =>
    cases hget : alistGet food i.food_id with
    | none =>
      unfold favorites_merge
      rw [hget]
    | some f =>
      simp only [List.map_cons, List.nodup_cons, not_and_or] at h
      rcases h with hmem | ht
      · rw [not_not] at hmem
        obtain ⟨j, hjt, hfid⟩ := List.mem_map.1 hmem
        have hj' : alistGet (alistRemove food i.food_id) j.food_id = none := by
          rw [hfid]
          exact alistGet_remove_self ..
        unfold favorites_merge
        rw [hget, favorites_merge_missing _ _ ⟨j, hjt, hj'⟩]
      · unfold favorites_merge
        rw [hget, ih _ ht]

theorem items_merge_missing (food : List (ID × Food)) (rows : List IndexedOrderItem)
    (h : ∃ i ∈ rows, alistGet food i.food_id = none) :
    items_merge food rows = .error consistencyFault := by
  induction rows generalizing food with
  | nil => simp at h
  | cons i t ih =>
    obtain ⟨j, hj, hnone⟩ := h
    rcases List.mem_cons.1 hj with rfl | hjt
    · unfold items_merge
      rw [hnone]
    · cases hget : alistGet food i.food_id with
      | none =>
        unfold items_merge
        rw [hget]
      | some f =>
        have hj' : alistGet (alistRemove food i.food_id) j.food_id = none := by
          by_cases hk : j.food_id = i.food_id
          · rw [hk]
            exact alistGet_remove_self ..
          · rw [alistGet_remove_ne _ _ _ hk]
            exact hnone
        unfold items_merge
        rw [hget, ih _ ⟨j, hjt, hj'⟩]

theorem items_merge_mem_isSome (food : List (ID × Food)) (rows : List IndexedOrderItem)
    (items : List OrderItem) (h : items_merge food rows = .ok items) :
    ∀ it ∈ items, (alistGet food it.indexed_item.food_id).isSome := by
  induction rows generalizing food items with
  | nil =>
    cases h
    intro it hit
    simp at hit
  | cons i t ih =>
    unfold items_merge at h
    cases hget : alistGet food i.food_id with
    | none => rw [hget] at h; cases h
    | some f =>
      rw [hget] at h
      cases hrec : items_merge (alistRemove food i.food_id) t with
      | error e => rw [hrec] at h; cases h
      | ok tail =>
        rw [hrec] at h
        cases h
        intro it hit
        rcases List.mem_cons.1 hit with rfl | hta
        · simp [hget]
        · obtain ⟨v, hv⟩ := Option.isSome_iff_exists.1 (ih _ _ hrec it hta)
          simp [alistGet_some_of_remove _ _ _ _ hv]

theorem items_merge_nodup (food : List (ID × Food)) (rows : List IndexedOrderItem)
    (items : List OrderItem) (h : items_merge food rows = .ok items) :
    (items.map (fun it => it.indexed_item.food_id)).Nodup := by
  induction rows generalizing food items with
  | nil => cases h; simp
  | cons i t ih =>
    unfold items_merge at h
    cases hget : alistGet food i.food_id with
    | none => rw [hget] at h; cases h
    | some f =>
      rw [hget] at h
      cases hrec : items_merge (alistRemove food i.food_id) t with
      | error e => rw [hrec] at h; cases h
      | ok tail =>
        rw [hrec] at h
        cases h
        simp only [List.map_cons, List.nodup_cons]
        refine ⟨fun hmem => ?_, ih _ _ hrec⟩
        obtain ⟨it, hit, hfid⟩ := List.mem_map.1 hmem
        have := items_merge_mem_isSome _ _ _ hrec it hit
        rw [hfid, alistGet_remove_self] at this
        cases this

theorem items_merge_dup (food : List (ID × Food)) (rows : List IndexedOrderItem)
    (h : ¬ (rows.map (fun i => i.food_id)).Nodup) :
    items_merge food rows = .error consistencyFault := by
  induction rows generalizing food with
  | nil => simp at h
  | cons i t ih =>
    cases hget : alistGet food i.food_id with
    | none =>
      unfold items_merge
      rw [hget]
    | some f =>
      simp only [List.map_cons, List.nodup_cons, not_and_or] at h
      rcases h with hmem | ht
      · rw [not_not] at hmem
        obtain ⟨j, hjt, hfid⟩ := List.mem_map.1 hmem
        have hj' : alistGet (alistRemove food i.food_id) j.food_id = none := by
          rw [hfid]
          exact alistGet_remove_self ..
        unfold items_merge
        rw [hget, items_merge_missing _ _ ⟨j, hjt, hj'⟩]
      · unfold items_merge
        rw [hget, ih _ ht]

theorem items_merge_total_price (food : List (ID × Food)) (rows : List IndexedOrderItem)
    (items : List OrderItem) (h : items_merge food rows = .ok items) :
    ∀ it ∈ items, it.total_price = it.food.indexed_food.price * (it.indexed_item.count : ℚ) := by
  induction rows generalizing food items with
  | nil => cases h; simp
  | cons i t ih =>
    unfold items_merge at h
    cases hget : alistGet food i.food_id with
    | none => rw [hget] at h; cases h
    | some f =>
      rw [hget] at h
      cases hrec : items_merge (alistRemove food i.food_id) t with
      | error e => rw [hrec] at h; cases h
      | ok tail =>
        rw [hrec] at h
        cases h
        intro it hit
        rcases List.mem_cons.1 hit with rfl | hta
        · rfl
        · exact ih _ _ hrec it hta

/-! ## Helper lemmas: category resolution (`query_food`) -/

theorem food_merge_loop_missing (categories : List (ID × Category)) (acc : List (ID × Food))
    (rows : List IndexedFood) (h : ∃ f ∈ rows, alistGet categories f.category_id = none) :
    food_merge_loop categories acc rows = .error consistencyFault := by
  induction rows generalizing acc with
  | nil => simp at h
  | cons f t ih =>
    obtain ⟨g, hg, hnone⟩ := h
    rcases List.mem_cons.1 hg with rfl | hgt
    · unfold food_merge_loop
      rw [hnone]
    · cases hget : alistGet categories f.category_id with
      | none =>
        unfold food_merge_loop
        rw [hget]
      | some category =>
        unfold food_merge_loop
        rw [hget]
        exact ih _ ⟨g, hgt, hnone⟩

theorem food_merge_loop_error (categories : List (ID × Category)) (acc : List (ID × Food))
    (rows : List IndexedFood) (e : DbError) (h : food_merge_loop categories acc rows = .error e) :
    e = consistencyFault := by
  induction rows generalizing acc with
  | nil => cases h
  | cons f t ih =>
    unfold food_merge_loop at h
    cases hget : alistGet categories f.category_id with
    | none =>
      rw [hget] at h
      cases h
      rfl
    | some category =>
      rw [hget] at h
      exact ih _ h

theorem food_merge_loop_get_none (categories : List (ID × Category)) (acc : List (ID × Food))
    (rows : List IndexedFood) (m : List (ID × Food)) (k : ID)
    (hrows : ∀ f ∈ rows, f.id ≠ k) (hacc : alistGet acc k = none)
    (h : food_merge_loop categories acc rows = .ok m) : alistGet m k = none := by
  induction rows generalizing acc with
  | nil => cases h; exact hacc
  | cons f t ih =>
    unfold food_merge_loop at h
    cases hget : alistGet categories f.category_id with
    | none => rw [hget] at h; cases h
    | some category =>
      rw [hget] at h
      refine ih _ (fun g hg => hrows g (List.mem_cons_of_mem _ hg)) ?_ h
      rw [alistGet_insert_ne _ _ _ _ fun e => hrows f (List.mem_cons_self ..) e.symm]
      exact hacc

theorem categoriesMap_get_none (categories : List Category) (k : ID)
    (h : ∀ c ∈ categories, c.id ≠ k) : alistGet (categoriesMap categories) k = none := by
  suffices hgen : ∀ acc : List (ID × Category), alistGet acc k = none →
      alistGet (categories.foldl (fun m category => alistInsert m category.id category) acc) k = none by
    exact hgen [] rfl
  induction categories with
  | nil => intro acc hacc; exact hacc
  | cons c t ih =>
    intro acc hacc
    refine ih (fun g hg => h g (List.mem_cons_of_mem _ hg)) _ ?_
    rw [alistGet_insert_ne _ _ _ _ fun e => h c (List.mem_cons_self ..) e.symm]
    exact hacc

/-! ## Helper lemmas: comparators and sorting -/

theorem cmp_title_ne_gt (l r : IndexedFood) :
    (SortFoodBy.Title.cmp l r ≠ Ordering.gt) ↔ l.title ≤ r.title := by
  simp only [SortFoodBy.cmp]
  unfold compareOfLessAndEq
  by_cases h1 : l.title < r.title
  · simp [h1, le_of_lt h1]
  · by_cases h2 : l.title = r.title
    · simp [h1, h2]
    · have : ¬ l.title ≤ r.title := fun hle => h2 (le_antisymm hle (le_of_not_lt h1))
      simp [h1, h2, this]

theorem cmp_count_ne_gt (l r : IndexedFood) :
    (SortFoodBy.Count.cmp l r ≠ Ordering.gt) ↔ l.count ≤ r.count := by
  simp only [SortFoodBy.cmp]
  unfold compareOfLessAndEq
  by_cases h1 : l.count < r.count
  · simp [h1, le_of_lt h1]
  · by_cases h2 : l.count = r.count
    · simp [h1, h2]
    · have : ¬ l.count ≤ r.count := fun hle => h2 (le_antisymm hle (le_of_not_lt h1))
      simp [h1, h2, this]

theorem cmp_price_ne_gt (l r : IndexedFood) :
    (SortFoodBy.Price.cmp l r ≠ Ordering.gt) ↔ l.price ≤ r.price := by
  simp only [SortFoodBy.cmp]
  unfold compareOfLessAndEq
  by_cases h1 : l.price < r.price
  · simp [h1, le_of_lt h1]
  · by_cases h2 : l.price = r.price
    · simp [h1, h2]
    · have : ¬ l.price ≤ r.price := fun hle => h2 (le_antisymm hle (le_of_not_lt h1))
      simp [h1, h2, this]

theorem cmp_cart_count_ne_gt (l r : IndexedCartItem) :
    (SortCartBy.Count.cmp l r ≠ Ordering.gt) ↔ l.count ≤ r.count := by
  simp only [SortCartBy.cmp]
  unfold compareOfLessAndEq
  by_cases h1 : l.count < r.count
  · simp [h1, le_of_lt h1]
  · by_cases h2 : l.count = r.count
    · simp [h1, h2]
    · have : ¬ l.count ≤ r.count := fun hle => h2 (le_antisymm hle (le_of_not_lt h1))
      simp [h1, h2, this]

theorem cmp_add_time_ne_gt (l r : IndexedCartItem) :
    (SortCartBy.AddTime.cmp l r ≠ Ordering.gt) ↔ l.add_time ≤ r.add_time := by
  simp only [SortCartBy.cmp]
  unfold compareOfLessAndEq
  by_cases h1 : l.add_time < r.add_time
  · simp [h1, le_of_lt h1]
  · by_cases h2 : l.add_time = r.add_time
    · simp [h1, h2]
    · have : ¬ l.add_time ≤ r.add_time := fun hle => h2 (le_antisymm hle (le_of_not_lt h1))
      simp [h1, h2, this]

theorem sortFood_sorted (sort_by : SortFoodBy) (food : List IndexedFood) :
    List.Sorted (fun lhs rhs => sort_by.cmp lhs rhs ≠ Ordering.gt)
      (sortFood sort_by .Ascending food) := by
  cases sort_by with
  | Title =>
    haveI : IsTotal IndexedFood (fun lhs rhs => SortFoodBy.Title.cmp lhs rhs ≠ Ordering.gt) :=
      ⟨fun a b => by
        simp only [cmp_title_ne_gt]
        exact le_total _ _⟩
    haveI : IsTrans IndexedFood (fun lhs rhs => SortFoodBy.Title.cmp lhs rhs ≠ Ordering.gt) :=
      ⟨fun a b c hab hbc => by
        simp only [cmp_title_ne_gt] at *
        exact le_trans hab hbc⟩
    exact List.sorted_insertionSort _ _
  | Count =>
    haveI : IsTotal IndexedFood (fun lhs rhs => SortFoodBy.Count.cmp lhs rhs ≠ Ordering.gt) :=
      ⟨fun a b => by
        simp only [cmp_count_ne_gt]
        exact le_total _ _⟩
    haveI : IsTrans IndexedFood (fun lhs rhs => SortFoodBy.Count.cmp lhs rhs ≠ Ordering.gt) :=
      ⟨fun a b c hab hbc => by
        simp only [cmp_count_ne_gt] at *
        exact le_trans hab hbc⟩
    exact List.sorted_insertionSort _ _
  | Price =>
    haveI : IsTotal IndexedFood (fun lhs rhs => SortFoodBy.Price.cmp lhs rhs ≠ Ordering.gt) :=
      ⟨fun a b => by
        simp only [cmp_price_ne_gt]
        exact le_total _ _⟩
    haveI : IsTrans IndexedFood (fun lhs rhs => SortFoodBy.Price.cmp lhs rhs ≠ Ordering.gt) :=
      ⟨fun a b c hab hbc => by
        simp only [cmp_price_ne_gt] at *
        exact le_trans hab hbc⟩
    exact List.sorted_insertionSort _ _

theorem sortCart_sorted (sort_by : SortCartBy) (cart : List IndexedCartItem) :
    List.Sorted (fun lhs rhs => sort_by.cmp lhs rhs ≠ Ordering.gt)
      (sortCart sort_by .Ascending cart) := by
  cases sort_by with
  | Count =>
    haveI : IsTotal IndexedCartItem (fun lhs rhs => SortCartBy.Count.cmp lhs rhs ≠ Ordering.gt) :=
      ⟨fun a b => by
        simp only [cmp_cart_count_ne_gt]
        exact le_total _ _⟩
    haveI : IsTrans IndexedCartItem (fun lhs rhs => SortCartBy.Count.cmp lhs rhs ≠ Ordering.gt) :=
      ⟨fun a b c hab hbc => by
        simp only [cmp_cart_count_ne_gt] at *
        exact le_trans hab hbc⟩
    exact List.sorted_insertionSort _ _
  | AddTime =>
    haveI : IsTotal IndexedCartItem (fun lhs rhs => SortCartBy.AddTime.cmp lhs rhs ≠ Ordering.gt) :=
      ⟨fun a b => by
        simp only [cmp_add_time_ne_gt]
        exact le_total _ _⟩
    haveI : IsTrans IndexedCartItem (fun lhs rhs => SortCartBy.AddTime.cmp lhs rhs ≠ Ordering.gt) :=
      ⟨fun a b c hab hbc => by
        simp only [cmp_add_time_ne_gt] at *
        exact le_trans hab hbc⟩
    exact List.sorted_insertionSort _ _

theorem sortCart_mem (sort_by : SortCartBy) (sort_order : SortOrder)
    (cart : List IndexedCartItem) (i : IndexedCartItem) :
    i ∈ sortCart sort_by sort_order cart ↔ i ∈ cart := by
  have hperm := List.perm_insertionSort
    (fun lhs rhs => sort_by.cmp lhs rhs ≠ Ordering.gt) cart
  cases sort_order with
  | Ascending => exact hperm.mem_iff
  | Descending =>
    unfold sortCart
    rw [List.mem_reverse]
    exact hperm.mem_iff

/-! ## Helper lemmas: order hydration -/

theorem hydrate_order_ok (s : DbState) (o : IndexedOrder) (ord : Order)
    (h : hydrate_order s o = .ok ord) :
    ord.indexed_order = o ∧ ord.total_price = (ord.items.map (·.total_price)).sum := by
  unfold hydrate_order at h
  repeat' split at h
  any_goals cases h
  all_goals exact ⟨rfl, rfl⟩

theorem hydrate_orders_indexed (s : DbState) (rows : List IndexedOrder) (os : List Order)
    (h : hydrate_orders s rows = .ok os) : os.map (·.indexed_order) = rows := by
  induction rows generalizing os with
  | nil => cases h; rfl
  | cons o t ih =>
    unfold hydrate_orders at h
    cases ho : hydrate_order s o with
    | error e => rw [ho] at h; cases h
    | ok ord =>
      rw [ho] at h
      cases ht : hydrate_orders s t with
      | error e => rw [ht] at h; cases h
      | ok tail =>
        rw [ht] at h
        cases h
        simp [ih _ ht, (hydrate_order_ok _ _ _ ho).1]

theorem hydrate_orders_total (s : DbState) (rows : List IndexedOrder) (os : List Order)
    (h : hydrate_orders s rows = .ok os) :
    ∀ o ∈ os, o.total_price = (o.items.map (·.total_price)).sum := by
  induction rows generalizing os with
  | nil =>
    cases h
    intro o ho
    simp at ho
  | cons r t ih =>
    unfold hydrate_orders at h
    cases hr : hydrate_order s r with
    | error e => rw [hr] at h; cases h
    | ok ord =>
      rw [hr] at h
      cases ht : hydrate_orders s t with
      | error e => rw [ht] at h; cases h
      | ok tail =>
        rw [ht] at h
        cases h
        intro o ho
        rcases List.mem_cons.1 ho with rfl | hot
        · exact (hydrate_order_ok _ _ _ hr).2
        · exact ih _ ht o hot

/-! ## Helper lemmas: conditional mutations -/

theorem filter_length_bne_zero {α : Type} (l : List α) (p : α → Bool) :
    (((l.filter p).length != 0) = true) ↔ ∃ x ∈ l, p x = true := by
  rw [bne_iff_ne]
  constructor
  · intro h
    obtain ⟨x, hx⟩ := List.exists_mem_of_length_pos (Nat.pos_of_ne_zero h)
    exact ⟨x, (List.mem_filter.1 hx).1, (List.mem_filter.1 hx).2⟩
  · intro ⟨x, hx, hp⟩
    have : 0 < (l.filter p).length :=
      List.length_pos.2 (List.ne_nil_of_mem (List.mem_filter.2 ⟨hx, hp⟩))
    omega

/-! ## Helper lemmas: checkout -/

theorem foldl_insert_order_food (items : List CartItem) (s : DbState) (oid : ID) :
    ∃ tail : List (ID × IndexedOrderItem),
      (items.foldl (fun st item => insert_order_food st oid item.indexed_cart_item.food_id
          item.indexed_cart_item.count) s).order_food = s.order_food ++ tail
      ∧ tail.map (fun p => (p.2.food_id, p.2.count))
          = items.map (fun it => (it.indexed_cart_item.food_id, it.indexed_cart_item.count))
      ∧ (∀ p ∈ tail, p.1 = oid)
      ∧ (items.foldl (fun st item => insert_order_food st oid item.indexed_cart_item.food_id
          item.indexed_cart_item.count) s).orders = s.orders
      ∧ (items.foldl (fun st item => insert_order_food st oid item.indexed_cart_item.food_id
          item.indexed_cart_item.count) s).cart = s.cart := by
  induction items generalizing s with
  | nil => exact ⟨[], by simp⟩
  | cons it t ih =>
    obtain ⟨tail, hof, hmap, hoid, hord, hcart⟩ :=
      ih (insert_order_food s oid it.indexed_cart_item.food_id it.indexed_cart_item.count)
    refine ⟨(oid, { id := s.next_id, food_id := it.indexed_cart_item.food_id,
                    count := it.indexed_cart_item.count }) :: tail, ?_, ?_, ?_, ?_, ?_⟩
    · rw [List.foldl_cons, hof]
      simp [insert_order_food]
    · simp [hmap]
    · intro p hp
      rcases List.mem_cons.1 hp with rfl | hpt
      · rfl
      · exact hoid p hpt
    · rw [List.foldl_cons, hord]
      rfl
    · rw [List.foldl_cons, hcart]
      rfl

/-! ## Helper lemmas: feedback -/

theorem add_user_feedback_not_ok_of_exists (s : DbState) (username : String) (f : Feedback)
    (h : s.feedback.any (fun fb => fb.order_id == f.order_id) = true) :
    ∀ r, add_user_feedback s username f ≠ .ok r := by
  intro r hok
  unfold add_user_feedback at hok
  split at hok
  · cases hok
  · split at hok
    · cases hok
    · split at hok
      · cases hok
      · split at hok
        · cases hok
        · unfold insert_feedback at hok
          rw [if_pos h] at hok
          cases hok

/-! ## The claims -/

/-- C6: for every input food list, every comparator and every direction, the
post-fetch sorting step of `food_in_category` returns a list sorted with
respect to the comparator, and the `Descending` result is the exact reverse of
the `Ascending` result for the same input; the same holds for the cart sorting
step used by `user_cart`. -/
theorem c6_sorting_correct :
    (∀ (sort_by : SortFoodBy) (food : List IndexedFood),
        List.Sorted (fun lhs rhs => sort_by.cmp lhs rhs ≠ Ordering.gt)
          (sortFood sort_by .Ascending food))
    ∧ (∀ (sort_by : SortFoodBy) (food : List IndexedFood),
        sortFood sort_by .Descending food = (sortFood sort_by .Ascending food).reverse)
    ∧ (∀ (s : DbState) (category_id : ID) (sort_by : SortFoodBy) (sort_order : SortOrder),
        food_in_category s category_id sort_by sort_order
          = sortFood sort_by sort_order (select_food_in_category s category_id))
    ∧ (∀ (sort_by : SortCartBy) (cart : List IndexedCartItem),
        List.Sorted (fun lhs rhs => sort_by.cmp lhs rhs ≠ Ordering.gt)
          (sortCart sort_by .Ascending cart))
    ∧ (∀ (sort_by : SortCartBy) (cart : List IndexedCartItem),
        sortCart sort_by .Descending cart = (sortCart sort_by .Ascending cart).reverse) :=
  ⟨sortFood_sorted, fun _ _ => rfl, fun _ _ _ _ => rfl, sortCart_sorted, fun _ _ => rfl⟩

/-- C5: the order-status filter characterizations (`All` keeps everything,
`InProgress` keeps exactly rider-assigned uncompleted orders, `Completed`
keeps exactly completed ones), and `query_orders` returns exactly the raw
rows satisfying the filter — the filter is applied to the raw order rows
before hydration, which only decorates each surviving row. -/
theorem c5_orders_filter :
    (∀ o : IndexedOrder,
        OrdersFilter.All.fits o = true
        ∧ (OrdersFilter.InProgress.fits o = true
            ↔ o.rider_id.isSome = true ∧ o.completed_time = none)
        ∧ (OrdersFilter.Completed.fits o = true ↔ o.completed_time.isSome = true))
    ∧ (∀ (s : DbState) (rows : List IndexedOrder) (filter : OrdersFilter) (os : List Order),
        query_orders s rows filter = .ok os →
          os.map (·.indexed_order) = rows.filter (fun o => filter.fits o)) := by
  constructor
  · intro o
    refine ⟨rfl, ?_, ?_⟩
    · simp [OrdersFilter.fits, Option.isNone_iff_eq_none]
    · simp [OrdersFilter.fits]
  · intro s rows filter os h
    exact hydrate_orders_indexed _ _ _ h

/-- Witness for C5 at the concrete store `wState`. -/
theorem c5_orders_filter_witness :
    (OrdersFilter.InProgress.fits wCompletedOrder = true
      ↔ wCompletedOrder.rider_id.isSome = true ∧ wCompletedOrder.completed_time = none)
    ∧ wOrders.map (·.indexed_order)
        = wState.orders.filter (fun o => OrdersFilter.Completed.fits o) :=
  ⟨(c5_orders_filter.1 wCompletedOrder).2.1,
   c5_orders_filter.2 wState wState.orders .Completed wOrders rfl⟩

/-- C3: for every aggregation read, a container row whose foreign reference is
absent from the separately fetched lookup set makes the whole operation fail
with the consistency-fault error (no partial result), a fetch failure
propagates as the store error it is, and the consistency fault is
distinguishable from every store failure. -/
theorem c3_consistency_fault :
    (∀ (e : DbError) (rowsRes : Except DbError (List IndexedFood)),
        query_food (.error e) rowsRes = .error e)
    ∧ (∀ (categories : List Category) (e : DbError),
        query_food (.ok categories) (.error e) = .error e)
    ∧ (∀ (categories : List Category) (rows : List IndexedFood),
        (∃ f ∈ rows, ∀ c ∈ categories, c.id ≠ f.category_id) →
          query_food (.ok categories) (.ok rows) = .error consistencyFault)
    ∧ (∀ (food : List (ID × Food)) (rows : List IndexedCartItem),
        (∃ i ∈ rows, alistGet food i.food_id = none) →
          cart_merge food rows = .error consistencyFault)
    ∧ (∀ (food : List (ID × Food)) (rows : List IndexedFavorite),
        (∃ i ∈ rows, alistGet food i.food_id = none) →
          favorites_merge food rows = .error consistencyFault)
    ∧ (∀ (food : List (ID × Food)) (rows : List IndexedOrderItem),
        (∃ i ∈ rows, alistGet food i.food_id = none) →
          items_merge food rows = .error consistencyFault)
    ∧ (∀ (s : DbState) (username : String) (sort_by : SortCartBy) (sort_order : SortOrder)
          (user_id : ID),
        user_id_by_name s username = .ok user_id →
        (∃ i ∈ select_user_cart s user_id,
            ∀ f ∈ select_food_in_user_cart s user_id, f.id ≠ i.food_id) →
          user_cart s username sort_by sort_order = .error consistencyFault)
    ∧ (∀ msg : String, consistencyFault ≠ DbError.store msg) := by
  refine ⟨fun _ _ => rfl, fun _ _ => rfl, ?_, cart_merge_missing, favorites_merge_missing,
    items_merge_missing, ?_, fun msg h => by cases h⟩
  · intro categories rows ⟨f, hf, hnone⟩
    unfold query_food
    exact food_merge_loop_missing _ _ _ ⟨f, hf, categoriesMap_get_none _ _ hnone⟩
  · intro s username sort_by sort_order user_id hu ⟨i, hi, hnone⟩
    unfold user_cart
    simp only [hu]
    cases hqf : query_food_state s (select_food_in_user_cart s user_id) with
    | error e =>
      have hqf' : food_merge_loop (categoriesMap s.categories) []
          (select_food_in_user_cart s user_id) = .error e := hqf
      have he := food_merge_loop_error _ _ _ _ hqf'
      subst he
      rfl
    | ok food =>
      have hqf' : food_merge_loop (categoriesMap s.categories) []
          (select_food_in_user_cart s user_id) = .ok food := hqf
      have hfood : alistGet food i.food_id = none :=
        food_merge_loop_get_none (categoriesMap s.categories) []
          (select_food_in_user_cart s user_id) food i.food_id
          (fun f hf => hnone f hf) rfl hqf'
      simp only [cart_merge_missing _ _ ⟨i, (sortCart_mem sort_by sort_order _ i).2 hi, hfood⟩]

/-- Witness for C3 at concrete inputs. -/
theorem c3_consistency_fault_witness :
    query_food (.error (.store "connection reset")) (.ok [wFoodA])
        = .error (.store "connection reset")
    ∧ query_food (.ok []) (.ok [wFoodA]) = .error consistencyFault
    ∧ cart_merge [] [{ id := 40, food_id := 20, count := 2, add_time := 0 }]
        = .error consistencyFault
    ∧ favorites_merge [] [{ id := 50, food_id := 20, add_time := 0 }]
        = .error consistencyFault
    ∧ items_merge [] [{ id := 61, food_id := 20, count := 2 }] = .error consistencyFault
    ∧ user_cart { wState with food := [] } "alice" .AddTime .Ascending
        = .error consistencyFault
    ∧ consistencyFault ≠ DbError.store "connection reset" :=
  ⟨c3_consistency_fault.1 (.store "connection reset") (.ok [wFoodA]),
   c3_consistency_fault.2.2.1 [] [wFoodA] ⟨wFoodA, by simp, by simp⟩,
   c3_consistency_fault.2.2.2.1 [] [{ id := 40, food_id := 20, count := 2, add_time := 0 }]
     ⟨{ id := 40, food_id := 20, count := 2, add_time := 0 }, by simp, rfl⟩,
   c3_consistency_fault.2.2.2.2.1 [] [{ id := 50, food_id := 20, add_time := 0 }]
     ⟨{ id := 50, food_id := 20, add_time := 0 }, by simp, rfl⟩,
   c3_consistency_fault.2.2.2.2.2.1 [] [{ id := 61, food_id := 20, count := 2 }]
     ⟨{ id := 61, food_id := 20, count := 2 }, by simp, rfl⟩,
   c3_consistency_fault.2.2.2.2.2.2.1 { wState with food := [] } "alice" .AddTime .Ascending 1
     rfl ⟨{ id := 40, food_id := 20, count := 2, add_time := 0 }, by decide, by decide⟩,
   c3_consistency_fault.2.2.2.2.2.2.2 "connection reset"⟩

/-- C10: every assembled collection (cart lines, favorites, order line items)
contains at most one entry per food identifier — on success the food
identifiers are pairwise distinct — and a second container row referencing the
same food makes the whole merge fail with the consistency fault, because each
resolved food is removed from the keyed map when first used. -/
theorem c10_unique_food_per_collection :
    (∀ (food : List (ID × Food)) (rows : List IndexedCartItem) (items : List CartItem),
        cart_merge food rows = .ok items →
          (items.map (fun it => it.indexed_cart_item.food_id)).Nodup)
    ∧ (∀ (food : List (ID × Food)) (rows : List IndexedFavorite) (favorites : List Favorite),
        favorites_merge food rows = .ok favorites →
          (favorites.map (fun f => f.indexed_favorite.food_id)).Nodup)
    ∧ (∀ (food : List (ID × Food)) (rows : List IndexedOrderItem) (items : List OrderItem),
        items_merge food rows = .ok items →
          (items.map (fun it => it.indexed_item.food_id)).Nodup)
    ∧ (∀ (food : List (ID × Food)) (rows : List IndexedCartItem),
        ¬ (rows.map (fun i => i.food_id)).Nodup →
          cart_merge food rows = .error consistencyFault)
    ∧ (∀ (food : List (ID × Food)) (rows : List IndexedFavorite),
        ¬ (rows.map (fun i => i.food_id)).Nodup →
          favorites_merge food rows = .error consistencyFault)
    ∧ (∀ (food : List (ID × Food)) (rows : List IndexedOrderItem),
        ¬ (rows.map (fun i => i.food_id)).Nodup →
          items_merge food rows = .error consistencyFault) :=
  ⟨cart_merge_nodup, favorites_merge_nodup, items_merge_nodup,
   cart_merge_dup, favorites_merge_dup, items_merge_dup⟩

/-- Witness for C10 at concrete inputs. -/
theorem c10_unique_food_per_collection_witness :
    (wMergedCartItems.map (fun it => it.indexed_cart_item.food_id)).Nodup
    ∧ (wMergedFavorites.map (fun f => f.indexed_favorite.food_id)).Nodup
    ∧ (wMergedOrderItems.map (fun it => it.indexed_item.food_id)).Nodup
    ∧ cart_merge wFoodMap [{ id := 40, food_id := 20, count := 2, add_time := 0 },
        { id := 41, food_id := 20, count := 1, add_time := 1 }] = .error consistencyFault
    ∧ favorites_merge wFoodMap [{ id := 50, food_id := 20, add_time := 0 },
        { id := 51, food_id := 20, add_time := 1 }] = .error consistencyFault
    ∧ items_merge wFoodMap [{ id := 61, food_id := 20, count := 2 },
        { id := 62, food_id := 20, count := 1 }] = .error consistencyFault :=
  ⟨c10_unique_food_per_collection.1 wFoodMap
     [{ id := 40, food_id := 20, count := 2, add_time := 0 }] wMergedCartItems rfl,
   c10_unique_food_per_collection.2.1 wFoodMap
     [{ id := 50, food_id := 20, add_time := 0 }] wMergedFavorites rfl,
   c10_unique_food_per_collection.2.2.1 wFoodMap
     [{ id := 61, food_id := 20, count := 2 }] wMergedOrderItems rfl,
   c10_unique_food_per_collection.2.2.2.1 wFoodMap _ (by decide),
   c10_unique_food_per_collection.2.2.2.2.1 wFoodMap _ (by decide),
   c10_unique_food_per_collection.2.2.2.2.2 wFoodMap _ (by decide)⟩

/-- C4: every assembled cart line's and order line's total price equals the
food's unit price times the line's quantity, and the cart's (or order's) grand
total equals the sum of its lines' totals; all computations are in the exact
arithmetic of `ℚ` (the embedding of the exact-decimal `Decimal` type), never
floating point. -/
theorem c4_money_arithmetic :
    (∀ (food : List (ID × Food)) (rows : List IndexedCartItem) (items : List CartItem),
        cart_merge food rows = .ok items →
          ∀ it ∈ items,
            it.total_price = it.food.indexed_food.price * (it.indexed_cart_item.count : ℚ))
    ∧ (∀ (food : List (ID × Food)) (rows : List IndexedOrderItem) (items : List OrderItem),
        items_merge food rows = .ok items →
          ∀ it ∈ items,
            it.total_price = it.food.indexed_food.price * (it.indexed_item.count : ℚ))
    ∧ (∀ (s : DbState) (username : String) (sort_by : SortCartBy) (sort_order : SortOrder)
          (cart : Cart),
        user_cart s username sort_by sort_order = .ok cart →
          cart.total_price = (cart.items.map (·.total_price)).sum)
    ∧ (∀ (s : DbState) (rows : List IndexedOrder) (filter : OrdersFilter) (os : List Order),
        query_orders s rows filter = .ok os →
          ∀ o ∈ os, o.total_price = (o.items.map (·.total_price)).sum) := by
  refine ⟨cart_merge_total_price, items_merge_total_price, ?_, ?_⟩
  · intro s username sort_by sort_order cart h
    unfold user_cart at h
    repeat' split at h
    any_goals cases h
    rfl
  · intro s rows filter os h
    exact hydrate_orders_total _ _ _ h

/-- Witness for C4: the spec's example cart of quantity 2 at price 5.00 plus
quantity 1 at price 3.50 totals 13.50. -/
theorem c4_money_arithmetic_witness :
    user_cart wState "alice" .AddTime .Ascending = .ok wCart
    ∧ wCart.items.map (fun it => it.indexed_cart_item.count) = [2, 1]
    ∧ wCart.total_price = 27/2
    ∧ (∀ it ∈ wMergedCartItems,
        it.total_price = it.food.indexed_food.price * (it.indexed_cart_item.count : ℚ))
    ∧ wCart.total_price = (wCart.items.map (·.total_price)).sum := by
  refine ⟨rfl, rfl, ?_,
    c4_money_arithmetic.1 wFoodMap [{ id := 40, food_id := 20, count := 2, add_time := 0 }]
      wMergedCartItems rfl,
    c4_money_arithmetic.2.2.1 wState "alice" .AddTime .Ascending wCart rfl⟩
  have h : wCart.total_price = wFoodA.price * ((2 : Int) : ℚ) + (wFoodB.price * ((1 : Int) : ℚ) + 0) := rfl
  rw [h]
  norm_num [wFoodA, wFoodB]

/-- C9: `make_order_from_user_cart` reads only `address_id` from the proposed
order: two invocations with the same user and state whose inputs agree on
`address_id` but differ arbitrarily elsewhere behave identically (same result
and same final store), and the created order's customer is always the acting
user resolved from the username (see C1). -/
theorem c9_checkout_reads_only_address (s : DbState) (username : String)
    (o1 o2 : IndexedOrder) (h : o1.address_id = o2.address_id) :
    make_order_from_user_cart s username o1 = make_order_from_user_cart s username o2 := by
  unfold make_order_from_user_cart
  rw [h]

/-- Witness for C9: the two concrete proposed orders differ in customer,
creation time, rider and completion, yet checkout behaves identically. -/
theorem c9_checkout_reads_only_address_witness :
    make_order_from_user_cart wState "alice" wOrderInput
      = make_order_from_user_cart wState "alice" wOrderInputAlt
    ∧ wOrderInput.customer_id ≠ wOrderInputAlt.customer_id
    ∧ wOrderInput.create_time ≠ wOrderInputAlt.create_time
    ∧ wOrderInput.rider_id ≠ wOrderInputAlt.rider_id
    ∧ wOrderInput.completed_time ≠ wOrderInputAlt.completed_time :=
  ⟨c9_checkout_reads_only_address wState "alice" wOrderInput wOrderInputAlt rfl,
   by decide, by decide, by decide, by decide⟩

/-- C2: checkout on an empty cart fails with the explicit "empty cart" domain
error; the error is returned before any insert or delete is issued, so the
store is unchanged (the operation's error outcome carries no new state). -/
theorem c2_checkout_empty_cart (s : DbState) (username : String) (order : IndexedOrder)
    (user_id : ID) (cart : Cart)
    (hu : user_id_by_name s username = .ok user_id)
    (hc : user_cart s username .AddTime .Ascending = .ok cart)
    (he : cart.items = []) :
    make_order_from_user_cart s username order = .error (.message "user cart is empty") := by
  unfold make_order_from_user_cart
  simp only [hu, hc]
  rw [if_pos (by rw [he]; rfl)]

/-- Witness for C2: the rider's cart in `wState` is empty, so checkout fails. -/
theorem c2_checkout_empty_cart_witness :
    make_order_from_user_cart wState "bob" wOrderInput
      = .error (.message "user cart is empty") :=
  c2_checkout_empty_cart wState "bob" wOrderInput 2 wEmptyCart rfl rfl rfl

/-- C8: every conditional mutation returning a boolean (`take_order`,
`complete_order`, `delete_untaken_user_order`, `delete_user_address`,
`delete_user_favorite`, `delete_user_cart_item`, `set_user_role`) succeeds
with `true` exactly when the underlying statement affected at least one row —
i.e. an eligible row existed — and with `false`, not an error, when no
matching row exists; failures are reserved for store errors (here, failing to
resolve the acting username). -/
theorem c8_boolean_mutations :
    (∀ (s : DbState) (username : String) (id : ID) (user_id : ID),
        user_id_by_name s username = .ok user_id →
          ∃ b s', take_order s username id = .ok (b, s')
            ∧ (b = true ↔ ∃ o ∈ s.orders,
                o.id = id ∧ o.rider_id = none ∧ o.completed_time = none))
    ∧ (∀ (s : DbState) (username : String) (id : ID) (user_id : ID),
        user_id_by_name s username = .ok user_id →
          ∃ b s', complete_order s username id = .ok (b, s')
            ∧ (b = true ↔ ∃ o ∈ s.orders,
                o.id = id ∧ o.rider_id = some user_id ∧ o.completed_time = none))
    ∧ (∀ (s : DbState) (username : String) (id : ID) (user_id : ID),
        user_id_by_name s username = .ok user_id →
          ∃ b s', delete_untaken_user_order s username id = .ok (b, s')
            ∧ (b = true ↔ ∃ o ∈ s.orders,
                o.customer_id = user_id ∧ o.id = id ∧ o.rider_id = none))
    ∧ (∀ (s : DbState) (username : String) (id : ID) (user_id : ID),
        user_id_by_name s username = .ok user_id →
          ∃ b s', delete_user_address s username id = .ok (b, s')
            ∧ (b = true ↔ ∃ p ∈ s.addresses, p.1 = user_id ∧ p.2.id = id))
    ∧ (∀ (s : DbState) (username : String) (id : ID) (user_id : ID),
        user_id_by_name s username = .ok user_id →
          ∃ b s', delete_user_favorite s username id = .ok (b, s')
            ∧ (b = true ↔ ∃ p ∈ s.favorites, p.1 = user_id ∧ p.2.id = id))
    ∧ (∀ (s : DbState) (username : String) (id : ID) (user_id : ID),
        user_id_by_name s username = .ok user_id →
          ∃ b s', delete_user_cart_item s username id = .ok (b, s')
            ∧ (b = true ↔ ∃ p ∈ s.cart, p.1 = user_id ∧ p.2.id = id))
    ∧ (∀ (s : DbState) (username : String) (role : UserRole) (user_id : ID),
        user_id_by_name s username = .ok user_id →
          ∃ b s', set_user_role s username role = .ok (b, s')
            ∧ (b = true ↔ ∃ u ∈ s.users, u.id = user_id)) := by
  refine ⟨?_, ?_, ?_, ?_, ?_, ?_, ?_⟩ <;> intro s username id user_id hu
  · unfold take_order
    simp only [hu]
    refine ⟨_, _, rfl, ?_⟩
    rw [filter_length_bne_zero]
    simp [Option.isNone_iff_eq_none, and_assoc]
  · unfold complete_order
    simp only [hu]
    refine ⟨_, _, rfl, ?_⟩
    rw [filter_length_bne_zero]
    simp [Option.isNone_iff_eq_none, and_assoc]
  · unfold delete_untaken_user_order
    simp only [hu]
    refine ⟨_, _, rfl, ?_⟩
    rw [filter_length_bne_zero]
    simp [Option.isNone_iff_eq_none, and_assoc]
  · unfold delete_user_address
    simp only [hu]
    refine ⟨_, _, rfl, ?_⟩
    rw [filter_length_bne_zero]
    simp
  · unfold delete_user_favorite
    simp only [hu]
    refine ⟨_, _, rfl, ?_⟩
    rw [filter_length_bne_zero]
    simp
  · unfold delete_user_cart_item
    simp only [hu]
    refine ⟨_, _, rfl, ?_⟩
    rw [filter_length_bne_zero]
    simp
  · unfold set_user_role
    simp only [hu]
    refine ⟨_, _, rfl, ?_⟩
    rw [filter_length_bne_zero]
    simp

/-- Witness for C8 at the concrete store `wState`. -/
theorem c8_boolean_mutations_witness :
    (∃ b s', take_order wState "bob" 60 = .ok (b, s')
      ∧ (b = true ↔ ∃ o ∈ wState.orders, o.id = 60 ∧ o.rider_id = none ∧ o.completed_time = none))
    ∧ (∃ b s', complete_order wState "bob" 60 = .ok (b, s')
      ∧ (b = true ↔ ∃ o ∈ wState.orders,
          o.id = 60 ∧ o.rider_id = some 2 ∧ o.completed_time = none))
    ∧ (∃ b s', delete_untaken_user_order wState "alice" 60 = .ok (b, s')
      ∧ (b = true ↔ ∃ o ∈ wState.orders, o.customer_id = 1 ∧ o.id = 60 ∧ o.rider_id = none))
    ∧ (∃ b s', delete_user_address wState "alice" 30 = .ok (b, s')
      ∧ (b = true ↔ ∃ p ∈ wState.addresses, p.1 = 1 ∧ p.2.id = 30))
    ∧ (∃ b s', delete_user_favorite wState "alice" 50 = .ok (b, s')
      ∧ (b = true ↔ ∃ p ∈ wState.favorites, p.1 = 1 ∧ p.2.id = 50))
    ∧ (∃ b s', delete_user_cart_item wState "alice" 40 = .ok (b, s')
      ∧ (b = true ↔ ∃ p ∈ wState.cart, p.1 = 1 ∧ p.2.id = 40))
    ∧ (∃ b s', set_user_role wState "alice" .Manager = .ok (b, s')
      ∧ (b = true ↔ ∃ u ∈ wState.users, u.id = 1)) :=
  ⟨c8_boolean_mutations.1 wState "bob" 60 2 rfl,
   c8_boolean_mutations.2.1 wState "bob" 60 2 rfl,
   c8_boolean_mutations.2.2.1 wState "alice" 60 1 rfl,
   c8_boolean_mutations.2.2.2.1 wState "alice" 30 1 rfl,
   c8_boolean_mutations.2.2.2.2.1 wState "alice" 50 1 rfl,
   c8_boolean_mutations.2.2.2.2.2.1 wState "alice" 40 1 rfl,
   c8_boolean_mutations.2.2.2.2.2.2 wState "alice" .Manager 1 rfl⟩


/-- C1: checkout on a non-empty cart creates exactly one new order whose
customer is the acting user with rider and completion unset, inserts exactly
one order line item per cart line with the same `(food_id, count)` pairs as
the pre-checkout cart, deletes all of the user's cart lines (the cart is
empty afterwards), and returns the new order's identifier. -/
theorem c1_checkout_success (s : DbState) (username : String) (order : IndexedOrder)
    (user_id : ID) (cart : Cart)
    (hu : user_id_by_name s username = .ok user_id)
    (hc : user_cart s username .AddTime .Ascending = .ok cart)
    (hne : cart.items ≠ []) :
    ∃ s', make_order_from_user_cart s username order = .ok (s.next_id, s')
      ∧ s'.orders = s.orders ++ [{ id := s.next_id, customer_id := user_id,
                                   address_id := order.address_id, create_time := s.now,
                                   rider_id := none, completed_time := none }]
      ∧ (∃ tail, s'.order_food = s.order_food ++ tail
          ∧ tail.map (fun p => (p.2.food_id, p.2.count))
              = cart.items.map (fun it => (it.indexed_cart_item.food_id, it.indexed_cart_item.count))
          ∧ ∀ p ∈ tail, p.1 = s.next_id)
      ∧ s'.cart = s.cart.filter (fun p => p.1 != user_id)
      ∧ s'.cart.filter (fun p => p.1 == user_id) = [] := by
  unfold make_order_from_user_cart
  simp only [hu, hc]
  rw [if_neg (by simp [List.isEmpty_iff, hne])]
  simp only [insert_user_order]
  obtain ⟨tail, hof, hmap, hoid, hord, hcart⟩ := foldl_insert_order_food cart.items
    { s with
      orders := s.orders ++ [{ id := s.next_id, customer_id := user_id,
                               address_id := order.address_id, create_time := s.now,
                               rider_id := none, completed_time := none }],
      next_id := s.next_id + 1 } s.next_id
  refine ⟨_, rfl, ?_, ⟨tail, ?_, hmap, hoid⟩, ?_, ?_⟩
  · simp only [delete_user_cart_all]
    rw [hord]
  · simp only [delete_user_cart_all]
    rw [hof]
  · simp only [delete_user_cart_all]
    rw [hcart]
  · simp only [delete_user_cart_all]
    rw [hcart]
    show List.filter _ (List.filter _ s.cart) = []
    rw [List.filter_filter]
    refine List.filter_eq_nil_iff.2 ?_
    intro p hp
    by_cases h : p.1 = user_id <;> simp [h]

/-- Witness for C1: checkout of the concrete two-line cart in `wState`. -/
theorem c1_checkout_success_witness :
    ∃ s', make_order_from_user_cart wState "alice" wOrderInput = .ok (wState.next_id, s')
      ∧ s'.orders = wState.orders ++ [{ id := wState.next_id, customer_id := 1,
                                        address_id := wOrderInput.address_id,
                                        create_time := wState.now,
                                        rider_id := none, completed_time := none }]
      ∧ (∃ tail, s'.order_food = wState.order_food ++ tail
          ∧ tail.map (fun p => (p.2.food_id, p.2.count))
              = wCart.items.map (fun it => (it.indexed_cart_item.food_id, it.indexed_cart_item.count))
          ∧ ∀ p ∈ tail, p.1 = wState.next_id)
      ∧ s'.cart = wState.cart.filter (fun p => p.1 != 1)
      ∧ s'.cart.filter (fun p => p.1 == 1) = [] :=
  c1_checkout_success wState "alice" wOrderInput 1 wCart rfl rfl
    (List.ne_nil_of_length_pos (by decide))

/-- C7: feedback submission is rejected when rating and comment are both
absent; it is rejected when no completed order with the given identifier is
owned by the caller (covering uncompleted and not-owned orders); it can never
succeed when the order already carries feedback; and on a completed, owned,
feedback-less order it succeeds, returns the new feedback's identifier, and a
repeated identical submission is rejected — it succeeds exactly once. -/
theorem c7_feedback_rules :
    (∀ (s : DbState) (username : String) (f : Feedback),
        f.rating = none → f.comment = none →
          add_user_feedback s username f
            = .error (.message "either rating or comment must be provided"))
    ∧ (∀ (s : DbState) (username : String) (f : Feedback) (user_id : ID),
        (f.rating ≠ none ∨ f.comment ≠ none) →
        user_id_by_name s username = .ok user_id →
        (∀ o ∈ s.orders,
            ¬(o.customer_id = user_id ∧ o.id = f.order_id ∧ o.completed_time.isSome = true)) →
          add_user_feedback s username f
            = .error (.message "there is no completed order with such ID that owned by the user"))
    ∧ (∀ (s : DbState) (username : String) (f : Feedback),
        s.feedback.any (fun fb => fb.order_id == f.order_id) = true →
          ∀ r, add_user_feedback s username f ≠ .ok r)
    ∧ (∀ (s : DbState) (username : String) (f : Feedback) (user_id : ID) (o : Order)
          (rest : List Order),
        (f.rating ≠ none ∨ f.comment ≠ none) →
        user_id_by_name s username = .ok user_id →
        query_orders s (select_user_order s user_id f.order_id) .Completed = .ok (o :: rest) →
        s.feedback.any (fun fb => fb.order_id == f.order_id) = false →
          ∃ s', add_user_feedback s username f = .ok (s.next_id, s')
            ∧ s'.feedback = s.feedback ++ [{ id := s.next_id, order_id := f.order_id,
                                             rating := f.rating, comment := f.comment }]
            ∧ ∀ r, add_user_feedback s' username f ≠ .ok r) := by
  refine ⟨?_, ?_, add_user_feedback_not_ok_of_exists, ?_⟩
  · intro s username f h1 h2
    unfold add_user_feedback
    rw [if_pos (by simp [h1, h2])]
  · intro s username f user_id hcontent hu hnone
    have hcond : ¬ ((f.rating.isNone && f.comment.isNone) = true) := by
      simp only [Bool.and_eq_true, Option.isNone_iff_eq_none]
      rintro ⟨h1, h2⟩
      rcases hcontent with h | h
      · exact h h1
      · exact h h2
    unfold add_user_feedback
    rw [if_neg hcond]
    simp only [hu]
    have hfilter : (select_user_order s user_id f.order_id).filter
        (fun o => OrdersFilter.Completed.fits o) = [] := by
      rw [List.filter_eq_nil_iff]
      intro o ho
      obtain ⟨hmem, hcond2⟩ := List.mem_filter.1 ho
      simp only [Bool.and_eq_true, beq_iff_eq] at hcond2
      intro hfits
      exact hnone o hmem ⟨hcond2.1, hcond2.2, hfits⟩
    unfold query_orders
    rw [hfilter]
    rfl
  · intro s username f user_id o rest hcontent hu hq hfb
    have hcond : ¬ ((f.rating.isNone && f.comment.isNone) = true) := by
      simp only [Bool.and_eq_true, Option.isNone_iff_eq_none]
      rintro ⟨h1, h2⟩
      rcases hcontent with h | h
      · exact h h1
      · exact h h2
    unfold add_user_feedback
    rw [if_neg hcond]
    simp only [hu, hq]
    unfold insert_feedback
    rw [if_neg (by rw [hfb]; exact Bool.false_ne_true)]
    refine ⟨_, rfl, rfl, ?_⟩
    exact add_user_feedback_not_ok_of_exists _ username f (by simp [List.any_append])

/-- Witness for C7: a contentless submission is rejected; a submission by a
non-owner is rejected; and the customer's submission on the completed
feedback-less order succeeds, after which an identical resubmission can no
longer succeed. -/
theorem c7_feedback_rules_witness :
    add_user_feedback wState "alice" { id := 0, order_id := 60, rating := none, comment := none }
        = .error (.message "either rating or comment must be provided")
    ∧ add_user_feedback wState "bob" wFeedback
        = .error (.message "there is no completed order with such ID that owned by the user")
    ∧ (∃ s', add_user_feedback wState "alice" wFeedback = .ok (wState.next_id, s')
        ∧ s'.feedback = wState.feedback ++ [{ id := wState.next_id, order_id := wFeedback.order_id,
                                              rating := wFeedback.rating,
                                              comment := wFeedback.comment }]
        ∧ ∀ r, add_user_feedback s' "alice" wFeedback ≠ .ok r) :=
  ⟨c7_feedback_rules.1 wState "alice" { id := 0, order_id := 60, rating := none, comment := none }
     rfl rfl,
   c7_feedback_rules.2.1 wState "bob" wFeedback 2 (.inl (by decide)) rfl (by decide),
   c7_feedback_rules.2.2.2 wState "alice" wFeedback 1 wHydratedOrder [] (.inl (by decide)) rfl
     rfl rfl⟩
